import Mathlib

/-!
Shallow embedding of
`data/verify_certificate_chain_unittest/intermediate-eku-server-gated-crypto/generate-chains.py`
together with a model of the `gencerts` helper library the script drives.
The script itself is in the repository; the `gencerts` library is not, so
every operation of the library is modelled from the specification (such
definitions say so in their doc comment).  The script is embedded
faithfully, statement by statement.
-/

namespace Gencerts

/-- Modelled from the spec: the `gencerts` extension container is an ordered
mapping from extension identifier to a value string (`ExtensionSet` in the
spec; the script accesses it through `get_extensions().set_property`). -/
structure ExtensionSet where
  entries : List (String × String)
  deriving Repr, DecidableEq, Inhabited

/-- The empty extension set every fresh node starts with. -/
def ExtensionSet.empty : ExtensionSet := ⟨[]⟩

/-- Modelled from the spec: `set(name, value)` overwrites the existing entry
for `name` in place (preserving its position and the positions of all other
entries) or, when `name` has no entry yet, appends a new entry at the end. -/
def ExtensionSet.set_property (es : ExtensionSet) (name value : String) :
    ExtensionSet :=
  if name ∈ es.entries.map Prod.fst then
    ⟨es.entries.map fun p => if p.1 = name then (name, value) else p⟩
  else
    ⟨es.entries ++ [(name, value)]⟩

/-- Modelled from the spec: the library-wide default signature digest used
for every node that is not given an explicit one via `set_signature_hash`. -/
def defaultDigest : String := "sha256"

/-- Modelled from the spec: one in-memory, not-yet-encoded certificate.
`issuer` is an index into the arena of nodes of the same generation run
(the root points at itself); `serial_number` is the creation index within
the run; `digest` is `none` while the node keeps the library default;
`runId` identifies the generation run the node belongs to. -/
structure CertificateNode where
  name : String
  runId : Nat
  serial_number : Nat
  issuer : Nat
  validity : Option (String × String)
  digest : Option String
  extensions : ExtensionSet
  deriving Repr, DecidableEq, Inhabited

/-- The digest algorithm actually used to sign a node: its explicit choice
if one was configured, otherwise the library default. -/
def effectiveDigest (n : CertificateNode) : String :=
  n.digest.getD defaultDigest

/-- One observable library call, recorded in order of execution. -/
inductive Event where
  | setDefaultValidity (notBefore notAfter : String)
  | createRoot (name : String)
  | createIntermediate (name : String)
  | createEndEntity (name : String)
  | setSignatureHash (idx : Nat) (alg : String)
  | setExtension (idx : Nat) (name value : String)
  | writeFile (path : String)
  deriving Repr, DecidableEq, Inhabited

/-- Whether an event is one of the three node-creation calls. -/
def Event.isCreate : Event → Bool
  | .createRoot _ => true
  | .createIntermediate _ => true
  | .createEndEntity _ => true
  | _ => false

/-- Whether an event is the default-validity configuration call. -/
def Event.isSetDefaultValidity : Event → Bool
  | .setDefaultValidity _ _ => true
  | _ => false

/-- Whether an event is a `set_signature_hash` call. -/
def Event.isSetSignatureHash : Event → Bool
  | .setSignatureHash _ _ => true
  | _ => false

/-- Whether an event is a chain-write call. -/
def Event.isWrite : Event → Bool
  | .writeFile _ => true
  | _ => false

/-- Modelled from the spec: key material is an opaque handle generated for a
node; the rerun property of the spec (re-running a scenario must reproduce
structurally identical certificates) requires identical key material for the
same node name across runs, so the handle is derived deterministically from
the node name. -/
def keyOf (name : String) : String := "key-" ++ name

/-- The to-be-signed contents of a certificate as seen by the encoder:
subject, issuer name, serial number, validity, ordered extensions and the
subject key. -/
structure TBSCertificate where
  subject : String
  issuerName : String
  serial_number : Nat
  validity : Option (String × String)
  extensions : List (String × String)
  subjectKey : String
  deriving Repr, DecidableEq, Inhabited

/-- Modelled from the spec: the signer returns a value deterministically
bound to the exact to-be-signed content, the issuer key, and the chosen
digest algorithm; changing the digest changes the signature even when
everything else is identical. -/
structure Signature where
  signedContent : TBSCertificate
  issuerKey : String
  digest : String
  deriving Repr, DecidableEq, Inhabited

/-- One PEM certificate block of an output file, already decoded. -/
structure DecodedCert where
  tbs : TBSCertificate
  sigAlg : String
  signature : Signature
  deriving Repr, DecidableEq, Inhabited

/-- One output artifact of `write_chain`: the path, the leading description
comment block, and the certificate blocks in file order. -/
structure OutputFile where
  path : String
  description : String
  blocks : List DecodedCert
  deriving Repr, DecidableEq, Inhabited

/-- The whole observable state of the generator process: the process-wide
default validity range, the id and arena of the current generation run, the
files written so far, and the log of library calls. -/
structure GenState where
  defaultValidity : Option (String × String)
  runId : Nat
  nodes : List CertificateNode
  files : List OutputFile
  log : List Event
  deriving Repr, DecidableEq, Inhabited

/-- The state at interpreter start: nothing configured, nothing created. -/
def GenState.init : GenState := ⟨none, 0, [], [], []⟩

/-- Modelled from the spec: `gencerts.set_default_validity_range` records
the process-wide default validity window used by all subsequently created
nodes. -/
def set_default_validity_range (notBefore notAfter : String)
    (st : GenState) : GenState :=
  { st with defaultValidity := some (notBefore, notAfter),
            log := st.log ++ [.setDefaultValidity notBefore notAfter] }

/-- Modelled from the spec: `gencerts.create_self_signed_root_certificate`
creates a node whose issuer is itself, with fresh key material, default
validity and default digest.  Returns the arena index of the new node. -/
def create_self_signed_root_certificate (name : String) (st : GenState) :
    Nat × GenState :=
  let idx := st.nodes.length
  (idx,
   { st with
     nodes := st.nodes ++
       [{ name := name, runId := st.runId, serial_number := idx,
          issuer := idx, validity := st.defaultValidity, digest := none,
          extensions := ExtensionSet.empty }],
     log := st.log ++ [.createRoot name] })

/-- The configuration errors of the factory, per the spec's error taxonomy. -/
inductive ConfigError where
  | nullIssuer
  | issuerFromDifferentRun
  | unknownIssuer
  deriving Repr, DecidableEq, Inhabited

/-- Modelled from the spec: `gencerts.create_intermediate_certificate`,
where the issuer argument is a reference `(runId, arena index)` to a
previously created node, or `none` for a null reference.  Fails with a
configuration error when the issuer is null, belongs to a different
generation run, or is not a previously created node of the current run. -/
def create_intermediate_certificate (name : String)
    (issuer : Option (Nat × Nat)) (st : GenState) :
    Except ConfigError (Nat × GenState) :=
  match issuer with
  | none => .error .nullIssuer
  | some (rid, i) =>
    if rid ≠ st.runId then .error .issuerFromDifferentRun
    else if i < st.nodes.length then
      let idx := st.nodes.length
      .ok (idx,
        { st with
          nodes := st.nodes ++
            [{ name := name, runId := st.runId, serial_number := idx,
               issuer := i, validity := st.defaultValidity, digest := none,
               extensions := ExtensionSet.empty }],
          log := st.log ++ [.createIntermediate name] })
    else .error .unknownIssuer

/-- Modelled from the spec: `gencerts.create_end_entity_certificate`, same
contract as `create_intermediate_certificate` (a leaf is not structurally
distinguished). -/
def create_end_entity_certificate (name : String)
    (issuer : Option (Nat × Nat)) (st : GenState) :
    Except ConfigError (Nat × GenState) :=
  match issuer with
  | none => .error .nullIssuer
  | some (rid, i) =>
    if rid ≠ st.runId then .error .issuerFromDifferentRun
    else if i < st.nodes.length then
      let idx := st.nodes.length
      .ok (idx,
        { st with
          nodes := st.nodes ++
            [{ name := name, runId := st.runId, serial_number := idx,
               issuer := i, validity := st.defaultValidity, digest := none,
               extensions := ExtensionSet.empty }],
          log := st.log ++ [.createEndEntity name] })
    else .error .unknownIssuer

/-- Apply `f` to the node at arena index `idx`, leaving the rest alone. -/
def updateNode : List CertificateNode → Nat →
    (CertificateNode → CertificateNode) → List CertificateNode
  | [], _, _ => []
  | n :: ns, 0, f => f n :: ns
  | n :: ns, i + 1, f => n :: updateNode ns i f

/-- Modelled from the spec: `node.set_signature_hash(alg)` records the
digest algorithm the node's signature will use. -/
def set_signature_hash (idx : Nat) (alg : String) (st : GenState) :
    GenState :=
  { st with
    nodes := updateNode st.nodes idx fun n => { n with digest := some alg },
    log := st.log ++ [.setSignatureHash idx alg] }

/-- Modelled from the spec: `node.get_extensions().set_property(name, value)`
on the node at arena index `idx`. -/
def node_set_property (idx : Nat) (name value : String) (st : GenState) :
    GenState :=
  { st with
    nodes := updateNode st.nodes idx fun n =>
      { n with extensions := n.extensions.set_property name value },
    log := st.log ++ [.setExtension idx name value] }

/-- Modelled from the spec: the encoder's view of a node's to-be-signed
contents; the issuer name is propagated from the issuer node in the arena. -/
def encodeTBS (st : GenState) (n : CertificateNode) : TBSCertificate :=
  { subject := n.name,
    issuerName := ((st.nodes.get? n.issuer).map CertificateNode.name).getD "",
    serial_number := n.serial_number,
    validity := n.validity,
    extensions := n.extensions.entries,
    subjectKey := keyOf n.name }

/-- Modelled from the spec: signing a node produces its decoded certificate:
the to-be-signed contents, the signature algorithm, and the signature bound
to the contents, the issuer key, and the digest. -/
def signNode (st : GenState) (n : CertificateNode) : DecodedCert :=
  let tbs := encodeTBS st n
  { tbs := tbs,
    sigAlg := effectiveDigest n,
    signature :=
      { signedContent := tbs, issuerKey := keyOf tbs.issuerName,
        digest := effectiveDigest n } }

/-- Modelled from the spec: the writer's signing pass: every node of the
current run is signed in dependency order (the arena is in creation order,
and every issuer precedes its issuee there). -/
def signAll (st : GenState) : List DecodedCert :=
  st.nodes.map (signNode st)

/-- Modelled from the spec: `gencerts.write_chain(description, chain, path)`
signs the current run's nodes in dependency order, then emits the blocks in
exactly the caller-given `chain` order, preceded by the description. -/
def write_chain (description : String) (chain : List Nat) (path : String)
    (st : GenState) : GenState :=
  let pool := signAll st
  { st with
    files := st.files ++
      [{ path := path, description := description,
         blocks := chain.map fun i => pool.getD i default }],
    log := st.log ++ [.writeFile path] }

/-- Modelled from the spec: each chain-generation invocation constructs an
entirely fresh, independent issuance graph: a new run id and an empty
arena.  The default validity configuration, the files and the log carry
over. -/
def startRun (st : GenState) : GenState :=
  { st with runId := st.runId + 1, nodes := [] }

/-- The module docstring of `generate-chains.py`, passed as the description
of every written chain. -/
def moduleDocstring : String :=
  "Generates certificate chains where the intermediate contains netscape server\ngated crypto rather than serverAuth."

/-- `generate_chain(intermediate_digest_algorithm)` from the script,
statement by statement: create the self-signed root `Root`, the
intermediate `Intermediate` issued by the root with signature hash set to
the argument and `extendedKeyUsage = nsSGC`, the end entity `Target` issued
by the intermediate with `extendedKeyUsage = serverAuth,clientAuth` and
`subjectAltName = DNS:test.example`, then write `[target, intermediate,
root]` to `'%s-chain.pem' % intermediate_digest_algorithm`. -/
def generate_chain (intermediate_digest_algorithm : String)
    (st0 : GenState) : GenState :=
  let stA := startRun st0
  let r := create_self_signed_root_certificate "Root" stA
  match create_intermediate_certificate "Intermediate"
      (some (r.2.runId, r.1)) r.2 with
  | .error _ => r.2
  | .ok im =>
    let stB := set_signature_hash im.1 intermediate_digest_algorithm im.2
    let stC := node_set_property im.1 "extendedKeyUsage" "nsSGC" stB
    match create_end_entity_certificate "Target"
        (some (stC.runId, im.1)) stC with
    | .error _ => stC
    | .ok tg =>
      let stD := node_set_property tg.1 "extendedKeyUsage"
        "serverAuth,clientAuth" tg.2
      let stE := node_set_property tg.1 "subjectAltName"
        "DNS:test.example" stD
      write_chain moduleDocstring [tg.1, im.1, r.1]
        (intermediate_digest_algorithm ++ "-chain.pem") stE

/-- The two digests of the script's module-level loop, in loop order. -/
def scriptDigests : List String := ["sha1", "sha256"]

/-- The state after the module-level `set_default_validity_range` call. -/
def st0 : GenState :=
  set_default_validity_range "180101120000Z" "240101120000Z" GenState.init

/-- The state after the loop's first iteration, `generate_chain('sha1')`. -/
def sha1Run : GenState := generate_chain "sha1" st0

/-- The state after the loop's second iteration,
`generate_chain('sha256')`. -/
def sha256Run : GenState := generate_chain "sha256" sha1Run

/-- The whole script: the validity-range configuration followed by the
`for digest in ['sha1', 'sha256']: generate_chain(digest)` loop. -/
def runScript : GenState :=
  scriptDigests.foldl (fun st d => generate_chain d st) st0


/-- The three nodes `generate_chain` leaves in the arena, as a function of
the fresh run id, the default validity in force, and the digest argument. -/
def chainNodes (rid : Nat) (dv : Option (String × String)) (d : String) :
    List CertificateNode :=
  [{ name := "Root", runId := rid, serial_number := 0, issuer := 0,
     validity := dv, digest := none, extensions := ⟨[]⟩ },
   { name := "Intermediate", runId := rid, serial_number := 1, issuer := 0,
     validity := dv, digest := some d,
     extensions := ⟨[("extendedKeyUsage", "nsSGC")]⟩ },
   { name := "Target", runId := rid, serial_number := 2, issuer := 1,
     validity := dv, digest := none,
     extensions := ⟨[("extendedKeyUsage", "serverAuth,clientAuth"),
                     ("subjectAltName", "DNS:test.example")]⟩ }]

/-- The to-be-signed contents of the three certificates of one run. -/
def rootTBS (dv : Option (String × String)) : TBSCertificate :=
  { subject := "Root", issuerName := "Root", serial_number := 0,
    validity := dv, extensions := [], subjectKey := "key-Root" }

def intermediateTBS (dv : Option (String × String)) : TBSCertificate :=
  { subject := "Intermediate", issuerName := "Root", serial_number := 1,
    validity := dv, extensions := [("extendedKeyUsage", "nsSGC")],
    subjectKey := "key-Intermediate" }

def targetTBS (dv : Option (String × String)) : TBSCertificate :=
  { subject := "Target", issuerName := "Intermediate", serial_number := 2,
    validity := dv,
    extensions := [("extendedKeyUsage", "serverAuth,clientAuth"),
                   ("subjectAltName", "DNS:test.example")],
    subjectKey := "key-Target" }

/-- The blocks of the file one run writes: target, intermediate, root. -/
def chainBlocks (dv : Option (String × String)) (d : String) :
    List DecodedCert :=
  [{ tbs := targetTBS dv, sigAlg := defaultDigest,
     signature := { signedContent := targetTBS dv,
                    issuerKey := "key-Intermediate",
                    digest := defaultDigest } },
   { tbs := intermediateTBS dv, sigAlg := d,
     signature := { signedContent := intermediateTBS dv,
                    issuerKey := "key-Root", digest := d } },
   { tbs := rootTBS dv, sigAlg := defaultDigest,
     signature := { signedContent := rootTBS dv, issuerKey := "key-Root",
                    digest := defaultDigest } }]

/-- The library calls one run appends to the log. -/
def chainLog (d : String) : List Event :=
  [.createRoot "Root", .createIntermediate "Intermediate",
   .setSignatureHash 1 d, .setExtension 1 "extendedKeyUsage" "nsSGC",
   .createEndEntity "Target",
   .setExtension 2 "extendedKeyUsage" "serverAuth,clientAuth",
   .setExtension 2 "subjectAltName" "DNS:test.example",
   .writeFile (d ++ "-chain.pem")]

/-- Closed form of one `generate_chain` invocation from any state. -/
theorem generate_chain_eq (d : String) (st : GenState) :
    generate_chain d st =
      { defaultValidity := st.defaultValidity, runId := st.runId + 1,
        nodes := chainNodes (st.runId + 1) st.defaultValidity d,
        files := st.files ++
          [{ path := d ++ "-chain.pem", description := moduleDocstring,
             blocks := chainBlocks st.defaultValidity d }],
        log := st.log ++ chainLog d } := by
  simp [generate_chain, startRun, create_self_signed_root_certificate,
    create_intermediate_certificate, create_end_entity_certificate,
    set_signature_hash, node_set_property, write_chain, signAll, signNode,
    encodeTBS, effectiveDigest, updateNode, ExtensionSet.set_property,
    ExtensionSet.empty, keyOf, chainNodes, chainBlocks, chainLog, rootTBS,
    intermediateTBS, targetTBS, moduleDocstring]

/-- C1: every run of `generate_chain` with digest `sha1` creates the
self-signed root `Root`, the intermediate `Intermediate` issued by the root
with `extendedKeyUsage = nsSGC` and signature digest SHA1, and the end
entity `Target` issued by the intermediate with `extendedKeyUsage =
serverAuth,clientAuth` and `subjectAltName = DNS:test.example`, and writes
`[Target, Intermediate, Root]` to `sha1-chain.pem`: the first block decodes
to `Target` issued by `Intermediate`, the second to `Intermediate` issued
by `Root` carrying extended-key-usage `nsSGC`, the third to the self-signed
`Root`. -/
theorem sha1_run_builds_expected_chain (st : GenState) :
    (generate_chain "sha1" st).nodes.map
        (fun n => (n.name, n.issuer, n.extensions.entries)) =
      [("Root", 0, []), ("Intermediate", 0, [("extendedKeyUsage", "nsSGC")]),
       ("Target", 1, [("extendedKeyUsage", "serverAuth,clientAuth"),
                      ("subjectAltName", "DNS:test.example")])] ∧
    ((generate_chain "sha1" st).nodes.getD 1 default).digest = some "sha1" ∧
    ((generate_chain "sha1" st).files.getLast?.getD default).path =
      "sha1-chain.pem" ∧
    ((generate_chain "sha1" st).files.getLast?.getD default).blocks.map
        (fun c => (c.tbs.subject, c.tbs.issuerName)) =
      [("Target", "Intermediate"), ("Intermediate", "Root"),
       ("Root", "Root")] ∧
    (((generate_chain "sha1" st).files.getLast?.getD default).blocks.getD 1
        default).tbs.extensions = [("extendedKeyUsage", "nsSGC")] ∧
    (((generate_chain "sha1" st).files.getLast?.getD default).blocks.getD 1
        default).sigAlg = "sha1" ∧
    (((generate_chain "sha1" st).files.getLast?.getD default).blocks.getD 2
        default).tbs.subject =
      (((generate_chain "sha1" st).files.getLast?.getD default).blocks.getD 2
        default).tbs.issuerName := by
  simp [generate_chain_eq, chainNodes, chainBlocks, rootTBS,
    intermediateTBS, targetTBS, List.getLast?_concat]

/-- C2: in every issuance graph a generation run produces, exactly one node
(the root) is its own issuer, and every other node's issuer is a node of
the same run created strictly before it (smaller creation index). -/
theorem issuance_graph_wellformed (d : String) (st : GenState) :
    (generate_chain d st).nodes.countP
        (fun n => n.issuer == n.serial_number) = 1 ∧
    (generate_chain d st).nodes.all
        (fun n => (n.issuer == n.serial_number) ||
          decide (n.issuer < n.serial_number)) = true ∧
    (generate_chain d st).nodes.all
        (fun n => n.runId == (generate_chain d st).runId) = true := by
  simp [generate_chain_eq, chainNodes, List.countP_cons]

/-- C5: each generated chain is written to exactly one file named
`<digest>-chain.pem` for the digest token the run was invoked with (for the
script's two runs: `sha1-chain.pem` then `sha256-chain.pem`, lower-case),
and that token is exactly the digest configured on the intermediate node. -/
theorem chain_filename_matches_digest (d : String) (st : GenState) :
    (generate_chain d st).files.length = st.files.length + 1 ∧
    ((generate_chain d st).files.getLast?.getD default).path =
      d ++ "-chain.pem" ∧
    ((generate_chain d st).nodes.getD 1 default).digest = some d ∧
    runScript.files.map OutputFile.path =
      scriptDigests.map (fun x => x ++ "-chain.pem") := by
  refine ⟨?_, ?_, ?_, by decide⟩ <;>
    simp [generate_chain_eq, chainNodes, List.getLast?_concat]

/-- C6: the second generation run (digest SHA256, file
`sha256-chain.pem`) produces certificates structurally identical to the
SHA1 run's: the target and root blocks coincide, the intermediate keeps the
same to-be-signed contents (extensions, validity, names, serial, key) and
differs only in its signature algorithm and signature value. -/
theorem sha256_rerun_differs_only_in_intermediate_signature :
    ((runScript.files.getD 1 default).blocks.getD 0 default) =
      ((runScript.files.getD 0 default).blocks.getD 0 default) ∧
    ((runScript.files.getD 1 default).blocks.getD 2 default) =
      ((runScript.files.getD 0 default).blocks.getD 2 default) ∧
    ((runScript.files.getD 1 default).blocks.getD 1 default).tbs =
      ((runScript.files.getD 0 default).blocks.getD 1 default).tbs ∧
    ((runScript.files.getD 1 default).blocks.getD 1 default).sigAlg =
      "sha256" ∧
    ((runScript.files.getD 0 default).blocks.getD 1 default).sigAlg =
      "sha1" ∧
    ((runScript.files.getD 1 default).blocks.getD 1 default).signature ≠
      ((runScript.files.getD 0 default).blocks.getD 1 default).signature ∧
    ((runScript.files.getD 1 default).blocks.getD 1
          default).signature.signedContent =
      ((runScript.files.getD 0 default).blocks.getD 1
          default).signature.signedContent := by
  decide

/-- Overwriting: with an entry for `name` present, `set_property` maps the
entry list in place. -/
theorem set_property_entries_of_mem (es : ExtensionSet) (name value : String)
    (h : name ∈ es.entries.map Prod.fst) :
    (es.set_property name value).entries =
      es.entries.map fun p => if p.1 = name then (name, value) else p := by
  simp [ExtensionSet.set_property, h]

/-- Appending: with no entry for `name`, `set_property` appends one. -/
theorem set_property_entries_of_not_mem (es : ExtensionSet)
    (name value : String) (h : name ∉ es.entries.map Prod.fst) :
    (es.set_property name value).entries = es.entries ++ [(name, value)] := by
  simp [ExtensionSet.set_property, h]

/-- Keys are preserved by overwriting and extended by appending. -/
theorem set_property_keys (es : ExtensionSet) (name value : String) :
    (es.set_property name value).entries.map Prod.fst =
      (if name ∈ es.entries.map Prod.fst then es.entries.map Prod.fst
       else es.entries.map Prod.fst ++ [name]) := by
  by_cases hmem : name ∈ es.entries.map Prod.fst
  · rw [if_pos hmem, set_property_entries_of_mem es name value hmem,
      List.map_map]
    exact List.map_congr_left fun p _ => by
      by_cases hp : p.1 = name <;> simp [Function.comp, hp]
  · rw [if_neg hmem, set_property_entries_of_not_mem es name value hmem]
    simp

/-- After any `set_property name _`, the set has an entry for `name`. -/
theorem set_property_mem (es : ExtensionSet) (name value : String) :
    name ∈ (es.set_property name value).entries.map Prod.fst := by
  rw [set_property_keys]
  by_cases hmem : name ∈ es.entries.map Prod.fst <;> simp [hmem]

/-- C4: two successive `set_property` calls for the same identifier leave
exactly one entry for it, holding the second value, at the position the
identifier first appeared; entries for other identifiers keep their
positions, and no identifier is ever duplicated. -/
theorem set_property_overwrites_in_place (es : ExtensionSet)
    (name v1 v2 : String)
    (hnd : (es.entries.map Prod.fst).Nodup) :
    ((es.set_property name v1).set_property name v2).entries.countP
        (fun p => p.1 == name) = 1 ∧
    ((es.set_property name v1).set_property name v2).entries =
      (if name ∈ es.entries.map Prod.fst then
        es.entries.map fun p => if p.1 = name then (name, v2) else p
      else es.entries ++ [(name, v2)]) ∧
    (((es.set_property name v1).set_property name v2).entries.map
        Prod.fst).Nodup := by
  have hmem1 : name ∈ (es.set_property name v1).entries.map Prod.fst :=
    set_property_mem es name v1
  have hstep2 := set_property_entries_of_mem (es.set_property name v1)
    name v2 hmem1
  have hentries :
      ((es.set_property name v1).set_property name v2).entries =
        (if name ∈ es.entries.map Prod.fst then
          es.entries.map fun p => if p.1 = name then (name, v2) else p
        else es.entries ++ [(name, v2)]) := by
    by_cases hmem : name ∈ es.entries.map Prod.fst
    · rw [if_pos hmem, hstep2,
        set_property_entries_of_mem es name v1 hmem, List.map_map]
      exact List.map_congr_left fun p _ => by
        by_cases hp : p.1 = name <;> simp [Function.comp, hp]
    · rw [if_neg hmem, hstep2,
        set_property_entries_of_not_mem es name v1 hmem, List.map_append]
      have hfix : es.entries.map
            (fun p => if p.1 = name then (name, v2) else p) = es.entries := by
        rw [show es.entries = es.entries.map id from (List.map_id _).symm]
        rw [List.map_map]
        exact List.map_congr_left fun p hp => by
          have hp1 : p.1 ≠ name := fun hc =>
            hmem (hc ▸ List.mem_map_of_mem Prod.fst hp)
          simp [Function.comp, hp1]
      simp only [hfix, List.map_cons, List.map_nil]
      simp
  refine ⟨?_, hentries, ?_⟩
  · rw [hentries]
    by_cases hmem : name ∈ es.entries.map Prod.fst
    · rw [if_pos hmem]
      have hcount : (es.entries.map
            (fun p => if p.1 = name then (name, v2) else p)).countP
          (fun p => p.1 == name) =
          es.entries.countP (fun p => p.1 == name) := by
        rw [List.countP_map]
        exact List.countP_congr fun p _ => by
          by_cases hp : p.1 = name <;> simp [Function.comp, hp]
      have hone : (es.entries.map Prod.fst).count name = 1 :=
        List.count_eq_one_of_mem hnd hmem
      rw [List.count, List.countP_map] at hone
      rw [hcount, ← hone]
      exact List.countP_congr fun p _ => by
        by_cases hp : p.1 = name <;> simp [Function.comp, hp]
    · rw [if_neg hmem, List.countP_append]
      have hz : es.entries.countP (fun p => p.1 == name) = 0 := by
        rw [List.countP_eq_zero]
        intro p hp
        have hp1 : p.1 ≠ name := fun hc =>
          hmem (hc ▸ List.mem_map_of_mem Prod.fst hp)
        simp [hp1]
      simp [hz]
  · rw [hentries]
    by_cases hmem : name ∈ es.entries.map Prod.fst
    · rw [if_pos hmem]
      have hkeys : ((es.entries.map
            (fun p => if p.1 = name then (name, v2) else p)).map Prod.fst) =
          es.entries.map Prod.fst := by
        rw [List.map_map]
        exact List.map_congr_left fun p _ => by
          by_cases hp : p.1 = name <;> simp [Function.comp, hp]
      rw [hkeys]; exact hnd
    · rw [if_neg hmem]
      simp only [List.map_append, List.map_cons, List.map_nil]
      rw [List.nodup_append]
      exact ⟨hnd, List.nodup_singleton name, by simpa using hmem⟩

/-- Witness for the `set_property` overwrite theorem at a concrete set. -/
theorem set_property_overwrites_in_place_witness :
    ((ExtensionSet.mk [("keyUsage", "x")]).set_property "extendedKeyUsage"
        "v1" |>.set_property "extendedKeyUsage" "v2").entries =
      [("keyUsage", "x"), ("extendedKeyUsage", "v2")] := by
  have h := set_property_overwrites_in_place
    (ExtensionSet.mk [("keyUsage", "x")]) "extendedKeyUsage" "v1" "v2"
    (by decide)
  simpa using h.2.1

/-- The signing pool (arena order) evaluated at a valid index. -/
theorem signAll_getD (st : GenState) (i : Nat) (h : i < st.nodes.length) :
    (signAll st).getD i default = signNode st (st.nodes.getD i default) := by
  have h2 : i < (signAll st).length := by simpa [signAll]
  rw [List.getD_eq_getElem _ _ h2, List.getD_eq_getElem _ _ h]
  simp [signAll]

/-- C3: `write_chain` emits the certificate blocks in exactly the order of
its `chain` argument (each position holds the certificate of the node the
caller put there), independent of the creation and signing order of the
arena; in particular the reference usage writes target, then intermediate,
then root. -/
theorem write_chain_preserves_caller_order (description : String)
    (chain : List Nat) (path : String) (st : GenState)
    (h : ∀ i ∈ chain, i < st.nodes.length) :
    (write_chain description chain path st).files =
      st.files ++ [{ path := path, description := description,
                     blocks := chain.map (fun i =>
                       signNode st (st.nodes.getD i default)) }] ∧
    ((sha1Run.files.getD 0 default).blocks.map fun c => c.tbs.subject) =
      ["Target", "Intermediate", "Root"] := by
  refine ⟨?_, by decide⟩
  have hb : (chain.map fun i => (signAll st).getD i default) =
      chain.map fun i => signNode st (st.nodes.getD i default) :=
    List.map_congr_left fun i hi => signAll_getD st i (h i hi)
  simp only [write_chain]
  rw [hb]

/-- Witness for the write-order theorem: a one-node arena written twice,
in caller order. -/
theorem write_chain_preserves_caller_order_witness :
    (write_chain "d" [0, 0] "p" (GenState.mk none 5
        [{ name := "A", runId := 5, serial_number := 0, issuer := 0,
           validity := none, digest := none,
           extensions := ExtensionSet.empty }] [] [])).files =
      [{ path := "p", description := "d",
         blocks := [signNode (GenState.mk none 5
             [{ name := "A", runId := 5, serial_number := 0, issuer := 0,
                validity := none, digest := none,
                extensions := ExtensionSet.empty }] [] [])
             ({ name := "A", runId := 5, serial_number := 0, issuer := 0,
                validity := none, digest := none,
                extensions := ExtensionSet.empty }),
           signNode (GenState.mk none 5
             [{ name := "A", runId := 5, serial_number := 0, issuer := 0,
                validity := none, digest := none,
                extensions := ExtensionSet.empty }] [] [])
             ({ name := "A", runId := 5, serial_number := 0, issuer := 0,
                validity := none, digest := none,
                extensions := ExtensionSet.empty })] }] ∧
    ((sha1Run.files.getD 0 default).blocks.map fun c => c.tbs.subject) =
      ["Target", "Intermediate", "Root"] := by
  have h := write_chain_preserves_caller_order "d" [0, 0] "p"
    (GenState.mk none 5
      [{ name := "A", runId := 5, serial_number := 0, issuer := 0,
         validity := none, digest := none,
         extensions := ExtensionSet.empty }] [] []) (by decide)
  simpa using h

/-- C7: in the script's execution the default-validity configuration call
happens exactly once, as the very first library call (so before every
node-creation call), and the configured range is never mutated afterwards:
it is still in force, unchanged, after both generation runs. -/
theorem validity_range_configured_first :
    runScript.log.countP (fun e => e.isSetDefaultValidity) = 1 ∧
    (runScript.log.getD 0 default).isSetDefaultValidity = true ∧
    runScript.log.countP (fun e => e.isCreate) = 6 ∧
    st0.defaultValidity = some ("180101120000Z", "240101120000Z") ∧
    sha1Run.defaultValidity = st0.defaultValidity ∧
    sha256Run.defaultValidity = st0.defaultValidity ∧
    runScript.defaultValidity = some ("180101120000Z", "240101120000Z") := by
  decide

/-- C8: `create_intermediate_certificate` fails with a configuration error
on a null issuer and on an issuer from a different generation run, and on a
previously created issuer of the same run returns a new node issued by it. -/
theorem create_intermediate_contract (name : String) (st : GenState)
    (ref : Nat × Nat) :
    create_intermediate_certificate name none st =
      .error ConfigError.nullIssuer ∧
    (ref.1 ≠ st.runId →
      create_intermediate_certificate name (some ref) st =
        .error ConfigError.issuerFromDifferentRun) ∧
    (ref.1 = st.runId → ref.2 < st.nodes.length →
      create_intermediate_certificate name (some ref) st =
        .ok (st.nodes.length,
          { st with
            nodes := st.nodes ++
              [{ name := name, runId := st.runId,
                 serial_number := st.nodes.length, issuer := ref.2,
                 validity := st.defaultValidity, digest := none,
                 extensions := ExtensionSet.empty }],
            log := st.log ++ [.createIntermediate name] })) := by
  refine ⟨rfl, fun hne => ?_, fun heq hlt => ?_⟩
  · obtain ⟨rid, i⟩ := ref
    simp only [create_intermediate_certificate]
    rw [if_pos (by simpa using hne)]
  · obtain ⟨rid, i⟩ := ref
    simp only at heq hlt
    simp only [create_intermediate_certificate]
    rw [if_neg (by simpa using heq), if_pos hlt]

/-- Witness for the intermediate-creation contract: null issuer, an issuer
from run 9 against a run-5 state, and a valid same-run issuer. -/
theorem create_intermediate_contract_witness :
    create_intermediate_certificate "I" none (GenState.mk none 5
        [{ name := "A", runId := 5, serial_number := 0, issuer := 0,
           validity := none, digest := none,
           extensions := ExtensionSet.empty }] [] []) =
      .error ConfigError.nullIssuer ∧
    create_intermediate_certificate "I" (some (9, 0)) (GenState.mk none 5
        [{ name := "A", runId := 5, serial_number := 0, issuer := 0,
           validity := none, digest := none,
           extensions := ExtensionSet.empty }] [] []) =
      .error ConfigError.issuerFromDifferentRun ∧
    create_intermediate_certificate "I" (some (5, 0)) (GenState.mk none 5
        [{ name := "A", runId := 5, serial_number := 0, issuer := 0,
           validity := none, digest := none,
           extensions := ExtensionSet.empty }] [] []) =
      .ok (1, GenState.mk none 5
        [{ name := "A", runId := 5, serial_number := 0, issuer := 0,
           validity := none, digest := none,
           extensions := ExtensionSet.empty },
         { name := "I", runId := 5, serial_number := 1, issuer := 0,
           validity := none, digest := none,
           extensions := ExtensionSet.empty }] []
        [Event.createIntermediate "I"]) := by
  refine ⟨(create_intermediate_contract "I" _ (9, 0)).1,
    (create_intermediate_contract "I" _ (9, 0)).2.1 (by decide), ?_⟩
  have h := (create_intermediate_contract "I" (GenState.mk none 5
      [{ name := "A", runId := 5, serial_number := 0, issuer := 0,
         validity := none, digest := none,
         extensions := ExtensionSet.empty }] [] []) (5, 0)).2.2
    (by decide) (by decide)
  simpa using h

/-- C9: `set_signature_hash` is called only on the intermediate (arena
index 1) in both runs; the root and target keep the library default digest
in both generated chains, and each output filename token is exactly the
intermediate's configured signature hash. -/
theorem signature_hash_only_on_intermediate :
    runScript.log.filter (fun e => e.isSetSignatureHash) =
      [.setSignatureHash 1 "sha1", .setSignatureHash 1 "sha256"] ∧
    (sha1Run.nodes.getD 0 default).digest = none ∧
    (sha1Run.nodes.getD 1 default).digest = some "sha1" ∧
    (sha1Run.nodes.getD 2 default).digest = none ∧
    (sha256Run.nodes.getD 0 default).digest = none ∧
    (sha256Run.nodes.getD 1 default).digest = some "sha256" ∧
    (sha256Run.nodes.getD 2 default).digest = none ∧
    effectiveDigest (sha1Run.nodes.getD 0 default) = defaultDigest ∧
    effectiveDigest (sha1Run.nodes.getD 2 default) = defaultDigest ∧
    effectiveDigest (sha256Run.nodes.getD 0 default) = defaultDigest ∧
    effectiveDigest (sha256Run.nodes.getD 2 default) = defaultDigest ∧
    (sha1Run.files.getD 0 default).path =
      effectiveDigest (sha1Run.nodes.getD 1 default) ++ "-chain.pem" ∧
    (sha256Run.files.getD 1 default).path =
      effectiveDigest (sha256Run.nodes.getD 1 default) ++ "-chain.pem" := by
  decide

/-- C10: the script performs exactly two generations, for `sha1` then
`sha256` in that order, writes both files with the module docstring as the
leading description, and builds a fresh root, intermediate and target for
each generation: no node of the first run reappears in the second. -/
theorem script_generates_two_fresh_chains :
    scriptDigests = ["sha1", "sha256"] ∧
    runScript = generate_chain "sha256" (generate_chain "sha1" st0) ∧
    runScript.files.length = 2 ∧
    runScript.log.filter (fun e => e.isWrite) =
      [.writeFile "sha1-chain.pem", .writeFile "sha256-chain.pem"] ∧
    (runScript.files.getD 0 default).description = moduleDocstring ∧
    (runScript.files.getD 1 default).description = moduleDocstring ∧
    sha1Run.nodes.map CertificateNode.name =
      ["Root", "Intermediate", "Target"] ∧
    sha256Run.nodes.map CertificateNode.name =
      ["Root", "Intermediate", "Target"] ∧
    sha1Run.nodes.all (fun n => !(sha256Run.nodes.contains n)) = true := by
  decide

end Gencerts
